import Mathlib

/-!
# Verification of the ELI5 text-simplifier repository

A shallow embedding, in Lean 4, of the explanation-service and UI logic of
the repository (files `eli5_agent.py` and `app.py`), together with theorems
settling the specification's claims about it.

The remote model invocation is modelled as an explicit parameter
`model : String → InvokeOutcome`, mapping the formatted prompt payload to
either a provider response value or a raised exception (carrying the
exception's string description).  The embedded `get_eli5_explanation`
additionally returns the list of payloads sent over the network, so that
"issues zero / exactly one network call" is a statement about that list.
Python string truthiness (`not s`) is embedded as emptiness, and Python's
`str.strip()` as the list-based `pyStrip`.
-/

set_option maxRecDepth 20000

namespace Eli5

/-- The whitespace characters stripped by Python's `str.strip()` (ASCII
range: space, tab, newline, vertical tab, form feed, carriage return). -/
def isPyWhitespace (c : Char) : Bool :=
  c == ' ' || c == '\t' || c == '\n' || c == '\x0b' || c == '\x0c' || c == '\r'

/-- Python's `str.strip()`: remove leading and trailing whitespace. -/
def pyStrip (s : String) : String :=
  ⟨((s.data.dropWhile isPyWhitespace).reverse.dropWhile isPyWhitespace).reverse⟩

/-- A provider response value, as discriminated by the source's checks
`isinstance(response, dict) and 'text' in response` and
`hasattr(response, 'content')`:
`isDict` is whether the value is a dict, `textEntry` the value under the
key `text` when present, and `content` the `content` attribute when the
object has one (a plain dict has none). -/
structure PyResponse where
  isDict : Bool
  textEntry : Option String
  content : Option String
deriving DecidableEq, Repr

/-- Outcome of invoking the chain: a response value, or a raised exception
with its string description `str(e)`. -/
inductive InvokeOutcome where
  | ok (response : PyResponse)
  | exn (e : String)
deriving DecidableEq, Repr

/-- The part of `eli5_prompt_template_text` before the `{user_text}`
placeholder (the triple-quoted string opens with a newline; the first and
fourth lines end in a trailing space, as in the source). -/
def eli5_template_front : String :=
  "\nExplain the following text like I\x27m 5 years old. Make it very simple, use short sentences, and easy words. \nDo not use any complex words or jargon. Focus on the main idea.\n\nText to explain: \n"

/-- The part of `eli5_prompt_template_text` after the `{user_text}`
placeholder. -/
def eli5_template_suffix : String :=
  "\n\nSimplified Explanation for a 5-year-old:\n"

/-- The full template string `eli5_prompt_template_text` from
`eli5_agent.py`, with its `{user_text}` placeholder. -/
def eli5_prompt_template_text : String :=
  eli5_template_front ++ "{user_text}" ++ eli5_template_suffix

/-- Formatting the `PromptTemplate` with `user_text`: Python's f-string
formatting substitutes the argument verbatim in place of the single
`{user_text}` placeholder. -/
def formatPrompt (user_text : String) : String :=
  eli5_template_front ++ user_text ++ eli5_template_suffix

/-- `eli5_chain.invoke({"user_text": complex_text})`: the chain formats the
prompt with the user's text and sends the payload to the remote model.
Returns the outcome together with the list of network payloads sent (the
call happens whether or not the model raises). -/
def eli5_chain_invoke (model : String → InvokeOutcome) (user_text : String) :
    InvokeOutcome × List String :=
  let payload := formatPrompt user_text
  (model payload, [payload])

/-- Fixed message returned on empty or all-whitespace input. -/
def promptForInputMessage : String := "Please provide some text to simplify!"

/-- Fixed message returned when the response envelope has neither
recognized shape. -/
def unexpectedResponseMessage : String :=
  "Sorry, I couldn\x27t simplify the text properly. The response structure was unexpected."

/-- Fixed prefix of the error message built in the `except` handler. -/
def errorMessagePrefix : String :=
  "Sorry, an error occurred while trying to simplify the text: "

/-- `get_eli5_explanation(complex_text)` from `eli5_agent.py`, embedded over
an explicit remote model.  Returns the string result together with the list
of network payloads issued.  The Python `try`/`except Exception` wrapper is
embedded by the `.exn` branch: every raised exception is converted into the
error string, and the Lean function is total, so no exception escapes. -/
def get_eli5_explanation (model : String → InvokeOutcome) (complex_text : String) :
    String × List String :=
  if complex_text = "" ∨ pyStrip complex_text = "" then
    (promptForInputMessage, [])
  else
    match eli5_chain_invoke model complex_text with
    | (.ok response, calls) =>
      if response.isDict ∧ response.textEntry.isSome then
        (pyStrip (response.textEntry.getD ""), calls)
      else
        match response.content with
        | some c => (pyStrip c, calls)
        | none => (unexpectedResponseMessage, calls)
    | (.exn e, calls) => (errorMessagePrefix ++ e, calls)

/-! ## Embedding of `app.py` (the Streamlit presentation shell) -/

/-- Python truthiness of the value `os.getenv("GOOGLE_API_KEY")` under
`if not GOOGLE_API_KEY`: the credential is missing when the variable is
absent from the environment or bound to the empty string. -/
def credentialMissing : Option String → Bool
  | none => true
  | some s => decide (s = "")

/-- The `ValueError` message raised by `eli5_agent.py` at module load when
the key is missing. -/
def missingKeyErrorMessage : String :=
  "🔴 Error: GOOGLE_API_KEY not found. Please ensure it\x27s in your .env file or environment variables."

/-- Module-level initialization of `eli5_agent.py`: read `GOOGLE_API_KEY`
from the environment and raise `ValueError` when it is missing, otherwise
expose the loaded value to importers. -/
def eli5_agent_module_load (env : Option String) : Except String (Option String) :=
  if credentialMissing env then .error missingKeyErrorMessage
  else .ok env

/-- The message passed to `st.error` by `app.py`'s API-key check (three
adjacent string literals concatenated). -/
def appConfigErrorMessage : String :=
  "🔴 Configuration Error: GOOGLE_API_KEY not found. " ++
  "Please ensure you have a .env file in the project directory (eli5_text_simplifier) with your API key. " ++
  "The application will not be able to simplify text without it."

/-- How a run of `app.py` starts: importing `eli5_agent` may raise (the
script dies before rendering), the key check may halt via
`st.error` + `st.stop()`, or the app proceeds to its interactive body where
`get_eli5_explanation` can be invoked. -/
inductive AppStartup where
  | importError (msg : String)
  | configHalt (msg : String)
  | running
deriving DecidableEq, Repr

/-- Startup control flow of `app.py`: run the `eli5_agent` module-level
code (the import), then the `if not GOOGLE_API_KEY` check. -/
def app_startup (env : Option String) : AppStartup :=
  match eli5_agent_module_load env with
  | .error msg => .importError msg
  | .ok key =>
    if credentialMissing key then .configHalt appConfigErrorMessage
    else .running

/-- The transient UI session state of `app.py`
(`st.session_state.explanation` and `st.session_state.input_text`). -/
structure SessionState where
  explanation : String
  input_text : String
deriving DecidableEq, Repr

/-- The session-state initialization: both keys start as the empty
string. -/
def initSessionState : SessionState := ⟨"", ""⟩

/-- The message stored by the button handler on empty input. -/
def pleaseEnterMessage : String := "🤔 Please enter some text for me to simplify!"

/-- The three branches of the `✨ Simplify Text` button handler. -/
inductive HandlerBranch where
  | simplify
  | emptyInput
  | fallbackClear
deriving DecidableEq, Repr

/-- Which branch of the button handler runs for a given value of the text
area.  Python truthiness of a string is non-emptiness, so
`if complex_text_input and complex_text_input.strip():` is
`input ≠ "" ∧ strip input ≠ ""`, and the `elif` is
`not complex_text_input or not complex_text_input.strip()`. -/
def button_handler_branch (complex_text_input : String) : HandlerBranch :=
  if complex_text_input ≠ "" ∧ pyStrip complex_text_input ≠ "" then .simplify
  else if complex_text_input = "" ∨ pyStrip complex_text_input = "" then .emptyInput
  else .fallbackClear

/-- The state update performed by the `✨ Simplify Text` button handler. -/
def button_click (model : String → InvokeOutcome) (complex_text_input : String)
    (_s : SessionState) : SessionState :=
  if complex_text_input ≠ "" ∧ pyStrip complex_text_input ≠ "" then
    { input_text := complex_text_input,
      explanation := (get_eli5_explanation model complex_text_input).fst }
  else if complex_text_input = "" ∨ pyStrip complex_text_input = "" then
    { explanation := pleaseEnterMessage, input_text := "" }
  else
    { explanation := "", input_text := "" }
  -- The last branch clears both keys; `s` itself is otherwise unread.

/-- `if st.session_state.explanation:` — whether the result region
(subheader plus markdown blockquote) is rendered at all. -/
def showsOutput (s : SessionState) : Bool := decide (s.explanation ≠ "")

/-- `explanation.replace('\n', '\n> ')` at character level: the pattern is
the single character `'\n'`, each occurrence replaced by `"\n> "`. -/
def replaceNewlines : List Char → List Char
  | [] => []
  | c :: cs =>
    if c = '\n' then '\n' :: '>' :: ' ' :: replaceNewlines cs
    else c :: replaceNewlines cs

/-- The markdown source rendered for the stored explanation:
`f"> {st.session_state.explanation.replace('\n', '\n> ')}"`. -/
def render_explanation (explanation : List Char) : List Char :=
  '>' :: ' ' :: replaceNewlines explanation

/-- Split a character sequence at newline characters: the lines of a
markdown source (a trailing newline yields a final empty line). -/
def splitLines : List Char → List (List Char)
  | [] => [[]]
  | c :: cs =>
    if c = '\n' then [] :: splitLines cs
    else
      match splitLines cs with
      | [] => [[c]]
      | h :: t => (c :: h) :: t

/-! ## Theorems settling the claims -/

/-- An input whose strip is non-empty does not take the empty-input
short-circuit of `get_eli5_explanation`. -/
theorem not_short_circuit {t : String} (hne : pyStrip t ≠ "") :
    ¬ (t = "" ∨ pyStrip t = "") := by
  rintro (rfl | h)
  · exact hne rfl
  · exact hne h

/-- C1: for every input string that is empty or consists only of
whitespace, `get_eli5_explanation` returns the fixed prompt-for-input
message "Please provide some text to simplify!" and issues zero network
calls (the call log is empty, for every possible remote model). -/
theorem c1_empty_input_short_circuit (model : String → InvokeOutcome)
    (complex_text : String) (h : pyStrip complex_text = "") :
    get_eli5_explanation model complex_text = (promptForInputMessage, []) := by
  simp [get_eli5_explanation, h]

/-- Witness for C1 at the all-whitespace input `"   "`, with a model that
would fail if it were ever called. -/
theorem c1_witness :
    pyStrip "   " = "" ∧
    get_eli5_explanation (fun _ => .exn "network down") "   " =
      (promptForInputMessage, []) :=
  ⟨by decide, c1_empty_input_short_circuit (fun _ => .exn "network down") "   " (by decide)⟩

/-- C2: for every non-empty (after strip) input and every exception raised
by the remote call (modelled as the `.exn` outcome carrying `str(e)`), the
function catches the failure and returns the fixed error prefix followed by
the failure's description.  The embedded function is total, so no exception
propagates past its boundary. -/
theorem c2_exception_caught (model : String → InvokeOutcome)
    (complex_text e : String) (hne : pyStrip complex_text ≠ "")
    (hexn : model (formatPrompt complex_text) = .exn e) :
    (get_eli5_explanation model complex_text).fst = errorMessagePrefix ++ e := by
  simp [get_eli5_explanation, eli5_chain_invoke, not_short_circuit hne, hexn]

/-- Witness for C2 at input `"hi"` with a model raising `"boom"`. -/
theorem c2_witness :
    pyStrip "hi" ≠ "" ∧
    (get_eli5_explanation (fun _ => .exn "boom") "hi").fst =
      errorMessagePrefix ++ "boom" :=
  ⟨by decide, c2_exception_caught (fun _ => .exn "boom") "hi" "boom" (by decide) rfl⟩

/-- C3: for every input that is non-empty after stripping, exactly one
network call is issued — whatever the outcome — and its payload is the
fixed instruction template with the user's input substituted verbatim
(unmodified, not stripped) in place of the `{user_text}` placeholder. -/
theorem c3_one_call_verbatim_payload (model : String → InvokeOutcome)
    (complex_text : String) (hne : pyStrip complex_text ≠ "") :
    (get_eli5_explanation model complex_text).snd =
      [eli5_template_front ++ complex_text ++ eli5_template_suffix] := by
  have h0 := not_short_circuit hne
  show (get_eli5_explanation model complex_text).snd = [formatPrompt complex_text]
  cases hmo : model (formatPrompt complex_text) with
  | ok response =>
    by_cases hresp : response.isDict ∧ response.textEntry.isSome
    · simp [get_eli5_explanation, eli5_chain_invoke, h0, hmo, hresp]
    · cases hc : response.content <;>
        simp [get_eli5_explanation, eli5_chain_invoke, h0, hmo, hresp, hc]
  | exn e =>
    simp [get_eli5_explanation, eli5_chain_invoke, h0, hmo]

/-- Witness for C3 at the untrimmed input `" hi "`: the payload embeds the
input verbatim, surrounding whitespace included. -/
theorem c3_witness :
    pyStrip " hi " ≠ "" ∧
    (get_eli5_explanation (fun _ => .ok ⟨true, some "fine", none⟩) " hi ").snd =
      [eli5_template_front ++ " hi " ++ eli5_template_suffix] :=
  ⟨by decide,
   c3_one_call_verbatim_payload (fun _ => .ok ⟨true, some "fine", none⟩) " hi " (by decide)⟩

/-- On the dict-with-`text` response path, the result of
`get_eli5_explanation` is the stripped `text` entry. -/
theorem result_on_dict_text (model : String → InvokeOutcome)
    (complex_text t : String) (response : PyResponse)
    (hne : pyStrip complex_text ≠ "")
    (hok : model (formatPrompt complex_text) = .ok response)
    (hdict : response.isDict = true) (htext : response.textEntry = some t) :
    (get_eli5_explanation model complex_text).fst = pyStrip t := by
  simp [get_eli5_explanation, eli5_chain_invoke, not_short_circuit hne, hok, hdict, htext]

/-- C4: for every non-empty input, when the provider response is a dict
containing a `text` key, the function returns that text with leading and
trailing whitespace removed. -/
theorem c4_dict_text_stripped (model : String → InvokeOutcome)
    (complex_text t : String) (response : PyResponse)
    (hne : pyStrip complex_text ≠ "")
    (hok : model (formatPrompt complex_text) = .ok response)
    (hdict : response.isDict = true) (htext : response.textEntry = some t) :
    (get_eli5_explanation model complex_text).fst = pyStrip t :=
  result_on_dict_text model complex_text t response hne hok hdict htext

/-- Witness for C4: the response `{"text": "  hello  "}` yields
`"hello"`. -/
theorem c4_witness :
    pyStrip "hi" ≠ "" ∧
    (get_eli5_explanation (fun _ => .ok ⟨true, some "  hello  ", none⟩) "hi").fst =
      "hello" :=
  ⟨by decide,
   (c4_dict_text_stripped (fun _ => .ok ⟨true, some "  hello  ", none⟩) "hi"
      "  hello  " ⟨true, some "  hello  ", none⟩ (by decide) rfl rfl rfl).trans
    (by decide)⟩

/-- C5: for every non-empty input, when the provider response is not a
dict with a `text` key but exposes a `content` attribute, the function
returns that content stripped of leading and trailing whitespace. -/
theorem c5_content_attribute_stripped (model : String → InvokeOutcome)
    (complex_text c : String) (response : PyResponse)
    (hne : pyStrip complex_text ≠ "")
    (hok : model (formatPrompt complex_text) = .ok response)
    (hnotdict : response.isDict = false ∨ response.textEntry = none)
    (hcontent : response.content = some c) :
    (get_eli5_explanation model complex_text).fst = pyStrip c := by
  have hcond : ¬ (response.isDict ∧ response.textEntry.isSome) := by
    rcases hnotdict with h | h <;> simp [h]
  simp [get_eli5_explanation, eli5_chain_invoke, not_short_circuit hne, hok, hcond, hcontent]

/-- Witness for C5: a non-dict response whose `content` attribute is
`"  An answer.  "` yields `"An answer."`. -/
theorem c5_witness :
    pyStrip "hi" ≠ "" ∧
    (get_eli5_explanation (fun _ => .ok ⟨false, none, some "  An answer.  "⟩) "hi").fst =
      "An answer." :=
  ⟨by decide,
   (c5_content_attribute_stripped (fun _ => .ok ⟨false, none, some "  An answer.  "⟩)
      "hi" "  An answer.  " ⟨false, none, some "  An answer.  "⟩
      (by decide) rfl (Or.inl rfl) rfl).trans (by decide)⟩

/-- C6: for every non-empty input, when the provider response matches
neither recognized shape (not a dict containing `text`, and with no
`content` attribute), the function returns the fixed unexpected-response
message instead of raising. -/
theorem c6_unexpected_shape_message (model : String → InvokeOutcome)
    (complex_text : String) (response : PyResponse)
    (hne : pyStrip complex_text ≠ "")
    (hok : model (formatPrompt complex_text) = .ok response)
    (hnotdict : response.isDict = false ∨ response.textEntry = none)
    (hnocontent : response.content = none) :
    (get_eli5_explanation model complex_text).fst = unexpectedResponseMessage := by
  have hcond : ¬ (response.isDict ∧ response.textEntry.isSome) := by
    rcases hnotdict with h | h <;> simp [h]
  simp [get_eli5_explanation, eli5_chain_invoke, not_short_circuit hne, hok, hcond, hnocontent]

/-- Witness for C6: a dict without a `text` key (and, like every plain
dict, without a `content` attribute) yields the unexpected-response
message. -/
theorem c6_witness :
    pyStrip "hi" ≠ "" ∧
    (get_eli5_explanation (fun _ => .ok ⟨true, none, none⟩) "hi").fst =
      unexpectedResponseMessage :=
  ⟨by decide,
   c6_unexpected_shape_message (fun _ => .ok ⟨true, none, none⟩) "hi"
     ⟨true, none, none⟩ (by decide) rfl (Or.inr rfl) rfl⟩

/-- C7: when the credential is missing from the environment, the service
module raises at load time (before `get_eli5_explanation` can be called),
the UI run halts at startup displaying that error instead of proceeding,
and in particular the app never reaches the `running` state from which an
explain call is issued. -/
theorem c7_missing_credential_unreachable (env : Option String)
    (h : credentialMissing env = true) :
    eli5_agent_module_load env = .error missingKeyErrorMessage ∧
    app_startup env = .importError missingKeyErrorMessage ∧
    app_startup env ≠ .running := by
  refine ⟨?_, ?_, ?_⟩ <;> simp [eli5_agent_module_load, app_startup, h]

/-- Witness for C7 at an environment with no `GOOGLE_API_KEY`. -/
theorem c7_witness :
    credentialMissing none = true ∧
    (eli5_agent_module_load none = .error missingKeyErrorMessage ∧
     app_startup none = .importError missingKeyErrorMessage ∧
     app_startup none ≠ .running) :=
  ⟨by decide, c7_missing_credential_unreachable none (by decide)⟩

/-- C8: the final `else` branch of the button handler (which clears both
stored values) is unreachable: for every value of the text area, either
the `if` condition or the `elif` condition holds, the `elif` being the
exact negation of the `if`. -/
theorem c8_fallback_branch_unreachable (complex_text_input : String) :
    button_handler_branch complex_text_input ≠ .fallbackClear := by
  unfold button_handler_branch
  by_cases h : complex_text_input ≠ "" ∧ pyStrip complex_text_input ≠ ""
  · simp [h]
  · rw [if_neg h, if_pos]
    · simp
    · rcases not_and_or.mp h with h1 | h2
      · exact Or.inl (not_not.mp h1)
      · exact Or.inr (not_not.mp h2)

/-- C9: the rendered markdown for a stored explanation is block-quoted
text: line by line, its lines are exactly the explanation's lines, each
prefixed with `"> "` (the first by the f-string prefix, each later one
because every newline is replaced by a quoted line break). -/
theorem c9_blockquote_rendering (explanation : List Char) :
    splitLines (render_explanation explanation) =
      (splitLines explanation).map (fun l => '>' :: ' ' :: l) := by
  have key : ∀ e : List Char, ∃ h t, splitLines e = h :: t ∧
      splitLines (replaceNewlines e) = h :: t.map (fun l => '>' :: ' ' :: l) := by
    intro e
    induction e with
    | nil => exact ⟨[], [], rfl, rfl⟩
    | cons c cs ih =>
      obtain ⟨h, t, hs, hr⟩ := ih
      by_cases hc : c = '\n'
      · subst hc
        exact ⟨[], h :: t, by simp [splitLines, hs], by simp [replaceNewlines, splitLines, hr]⟩
      · exact ⟨c :: h, t, by simp [splitLines, hc, hs], by simp [replaceNewlines, splitLines, hc, hr]⟩
  obtain ⟨h, t, hs, hr⟩ := key explanation
  simp [render_explanation, splitLines, hs, hr]

/-- C10: the output region renders only for a non-empty stored
explanation: before any request the stored explanation is the empty string
and nothing is shown, and when a successful dict response carries text
that strips to empty, the handler stores the empty string and the region
is again not rendered. -/
theorem c10_empty_result_not_rendered (model : String → InvokeOutcome)
    (complex_text t : String) (response : PyResponse) (s : SessionState)
    (hne : pyStrip complex_text ≠ "")
    (hok : model (formatPrompt complex_text) = .ok response)
    (hdict : response.isDict = true) (htext : response.textEntry = some t)
    (htrim : pyStrip t = "") :
    showsOutput initSessionState = false ∧
    (button_click model complex_text s).explanation = "" ∧
    showsOutput (button_click model complex_text s) = false := by
  have hcomp : (get_eli5_explanation model complex_text).fst = "" := by
    have := result_on_dict_text model complex_text t response hne hok hdict htext
    rw [this, htrim]
  have hcond : complex_text ≠ "" ∧ pyStrip complex_text ≠ "" := by
    refine ⟨?_, hne⟩
    rintro rfl
    exact hne rfl
  constructor
  · decide
  constructor
  · simp [button_click, hcond, hcomp]
  · simp [showsOutput, button_click, hcond, hcomp]

/-- Witness for C10: a successful response whose text is all whitespace
leaves the stored explanation empty and the output region hidden, starting
from a session that previously held an explanation. -/
theorem c10_witness :
    pyStrip "hi" ≠ "" ∧ pyStrip "   " = "" ∧
    (showsOutput initSessionState = false ∧
     (button_click (fun _ => .ok ⟨true, some "   ", none⟩) "hi" ⟨"old", "old"⟩).explanation = "" ∧
     showsOutput (button_click (fun _ => .ok ⟨true, some "   ", none⟩) "hi" ⟨"old", "old"⟩) = false) :=
  ⟨by decide, by decide,
   c10_empty_result_not_rendered (fun _ => .ok ⟨true, some "   ", none⟩) "hi" "   "
     ⟨true, some "   ", none⟩ ⟨"old", "old"⟩ (by decide) rfl rfl rfl (by decide)⟩

end Eli5
